import Mathlib

/-!
Verification of the flight-lookup core of a small flight-tracker web app.

The core under study is the `GET /api/flights?flightNumber=<q>` handler:
it validates the query parameter, filters a fixed seed store of flight
records by a case-insensitive substring test on `flightNumber`, and
serializes the matches to a JSON array.  The display layer additionally
computes a flight duration as `arrivalTime - departureTime` after parsing
the ISO-8601 UTC timestamps.

The definitions below are a shallow embedding of that code: JavaScript
strings become Lean `String`s, `String.prototype.toLowerCase` becomes a
character map (the data is ASCII), `String.prototype.includes` becomes a
literal unanchored containment test on character lists, `Date.getTime()`
becomes an explicit ISO-8601 parser to milliseconds since the Unix epoch,
and the handler becomes a pure function from the optional query parameter
to a status-and-JSON-body response.
-/

/-- The `FlightLocation` record shape: airport code, city, terminal. -/
structure FlightLocation where
  code : String
  city : String
  terminal : String
deriving Repr, DecidableEq

/-- The `Flight` record shape, exactly the fields of the TypeScript
`Flight` interface and of the seed objects. -/
structure Flight where
  flightNumber : String
  airline : String
  origin : FlightLocation
  destination : FlightLocation
  departureTime : String
  arrivalTime : String
  status : String
  gate : String
deriving Repr, DecidableEq

/-- ASCII lower-casing of a string, modelling
`String.prototype.toLowerCase` on the ASCII data this program uses:
each character `A`-`Z` is mapped to its lower-case form, all other
characters are unchanged. -/
def jsToLower (s : String) : String :=
  ⟨s.data.map Char.toLower⟩

/-- Does the list `s` start with the list `p`?  (Helper for the
containment test behind `String.prototype.includes`.) -/
def listStartsWith : List Char → List Char → Bool
  | _, [] => true
  | [], _ :: _ => false
  | a :: s, b :: p => (a == b) && listStartsWith s p

/-- Literal, unanchored containment: does the list `s` contain the list
`p` as a contiguous run?  This is the semantics of
`String.prototype.includes` for the strings involved. -/
def listContains : List Char → List Char → Bool
  | [], p => listStartsWith [] p
  | a :: t, p => listStartsWith (a :: t) p || listContains t p

/-- `includes s pat` models `s.includes(pat)` on JavaScript strings. -/
def includes (s pat : String) : Bool :=
  listContains s.data pat.data

/-- The query matcher: for each flight of the store, in store order, keep
it iff its lower-cased `flightNumber` contains the lower-cased query.
This is the body of
`MOCK_FLIGHTS.filter(flight => flight.flightNumber.toLowerCase().includes(flightNumber.toLowerCase()))`. -/
def matchQuery (query : String) (store : List Flight) : List Flight :=
  store.filter fun f => includes (jsToLower f.flightNumber) (jsToLower query)

/-- First seed record of `MOCK_FLIGHTS`. -/
def mockAA123 : Flight :=
  { flightNumber := "AA123"
    airline := "American Airlines"
    origin := { code := "JFK", city := "New York", terminal := "8" }
    destination := { code := "LHR", city := "London", terminal := "3" }
    departureTime := "2025-12-08T18:00:00Z"
    arrivalTime := "2025-12-09T06:00:00Z"
    status := "On Time"
    gate := "B12" }

/-- Second seed record of `MOCK_FLIGHTS`. -/
def mockUA456 : Flight :=
  { flightNumber := "UA456"
    airline := "United Airlines"
    origin := { code := "SFO", city := "San Francisco", terminal := "3" }
    destination := { code := "NRT", city := "Tokyo", terminal := "1" }
    departureTime := "2025-12-08T11:00:00Z"
    arrivalTime := "2025-12-09T15:00:00Z"
    status := "Delayed"
    gate := "G4" }

/-- Third seed record of `MOCK_FLIGHTS`. -/
def mockDL789 : Flight :=
  { flightNumber := "DL789"
    airline := "Delta"
    origin := { code := "ATL", city := "Atlanta", terminal := "S" }
    destination := { code := "CDG", city := "Paris", terminal := "2E" }
    departureTime := "2025-12-08T20:30:00Z"
    arrivalTime := "2025-12-09T10:45:00Z"
    status := "Boarding"
    gate := "E14" }

/-- The seed store `MOCK_FLIGHTS`, in source order. -/
def MOCK_FLIGHTS : List Flight :=
  [mockAA123, mockUA456, mockDL789]

/-- A minimal JSON value type for the wire bodies the handler emits. -/
inductive Json where
  | str (s : String)
  | num (n : Int)
  | arr (items : List Json)
  | obj (fields : List (String × Json))

/-- Serialization of a `FlightLocation` as the handler's JSON emits it:
the object's own fields, in declaration order, unrenamed. -/
def locToJson (l : FlightLocation) : Json :=
  Json.obj [("code", Json.str l.code), ("city", Json.str l.city),
            ("terminal", Json.str l.terminal)]

/-- Serialization of a `Flight` as `NextResponse.json` emits it: one JSON
object with the record's own fields, in declaration order, unrenamed. -/
def flightToJson (f : Flight) : Json :=
  Json.obj [("flightNumber", Json.str f.flightNumber),
            ("airline", Json.str f.airline),
            ("origin", locToJson f.origin),
            ("destination", locToJson f.destination),
            ("departureTime", Json.str f.departureTime),
            ("arrivalTime", Json.str f.arrivalTime),
            ("status", Json.str f.status),
            ("gate", Json.str f.gate)]

/-- The response builder: `NextResponse.json(matches)` maps the matched
sequence directly to a JSON array, one object per flight, in order. -/
def buildResponse (fs : List Flight) : Json :=
  Json.arr (fs.map flightToJson)

/-- An HTTP response of the handler: a status code and a JSON body. -/
structure Response where
  status : Nat
  body : Json

/-- The fixed 400 error body `{"error": "Flight number is required"}`. -/
def errorBody : Json :=
  Json.obj [("error", Json.str "Flight number is required")]

/-- The route handler `GET`, as a pure function of the `flightNumber`
query parameter (`none` models an absent parameter, matching
`searchParams.get` returning `null`).  The JavaScript guard
`if (!flightNumber)` fires on `null` and on the empty string; otherwise
the handler filters `MOCK_FLIGHTS` and returns the matches as JSON. -/
def GET : Option String → Response
  | none => { status := 400, body := errorBody }
  | some q =>
      if q == "" then { status := 400, body := errorBody }
      else { status := 200, body := buildResponse (matchQuery q MOCK_FLIGHTS) }

/-- A decimal digit's value, `none` on a non-digit. -/
def digitVal (c : Char) : Option Nat :=
  if c.isDigit then some (c.toNat - 48) else none

/-- Days from the Unix epoch (1970-01-01) to the civil date `y-m-d`
(proleptic Gregorian, valid for the CE years this program uses): the
standard civil-from-days conversion used by `Date` implementations. -/
def daysSinceEpoch (y m d : Nat) : Int :=
  let yAdj : Nat := if m ≤ 2 then y - 1 else y
  let era : Nat := yAdj / 400
  let yoe : Nat := yAdj % 400
  let mp : Nat := (m + 9) % 12
  let doy : Nat := (153 * mp + 2) / 5 + d - 1
  let doe : Nat := yoe * 365 + yoe / 4 - yoe / 100 + doy
  (era * 146097 + doe : Int) - 719468

/-- Parse an ISO-8601 UTC timestamp of the exact shape
`YYYY-MM-DDTHH:MM:SSZ` (the shape of every timestamp in the seed data)
to milliseconds since the Unix epoch, modelling `new Date(s).getTime()`
on such strings.  Any other shape yields `none`. -/
def parseIsoUtc (s : String) : Option Int :=
  match s.data with
  | [y1, y2, y3, y4, '-', m1, m2, '-', d1, d2, 'T',
     h1, h2, ':', n1, n2, ':', s1, s2, 'Z'] =>
    match digitVal y1, digitVal y2, digitVal y3, digitVal y4,
          digitVal m1, digitVal m2, digitVal d1, digitVal d2,
          digitVal h1, digitVal h2, digitVal n1, digitVal n2,
          digitVal s1, digitVal s2 with
    | some a, some b, some c, some d, some e, some f,
      some g, some h, some i, some j, some k, some l,
      some m, some n =>
      let year := a * 1000 + b * 100 + c * 10 + d
      let mon := e * 10 + f
      let day := g * 10 + h
      let ms : Nat := ((i * 10 + j) * 3600 + (k * 10 + l) * 60 + (m * 10 + n)) * 1000
      some (daysSinceEpoch year mon day * 86400000 + (ms : Int))
    | _, _, _, _, _, _, _, _, _, _, _, _, _, _ => none
  | _ => none

/-- The duration the display layer computes:
`arrivalDate.getTime() - departureDate.getTime()` in milliseconds,
`none` when either timestamp fails to parse. -/
def durationMs (f : Flight) : Option Int :=
  match parseIsoUtc f.departureTime, parseIsoUtc f.arrivalTime with
  | some dep, some arr => some (arr - dep)
  | _, _ => none

/-! ## Helper lemmas -/

/-- `listStartsWith` computes the prefix relation. -/
theorem listStartsWith_iff (s p : List Char) : listStartsWith s p = true ↔ p <+: s := by
  induction s generalizing p with
  | nil =>
    cases p with
    | nil => simp [listStartsWith]
    | cons b q => simp [listStartsWith, List.prefix_nil]
  | cons a t ih =>
    cases p with
    | nil => simp [listStartsWith]
    | cons b q =>
      simp only [listStartsWith, Bool.and_eq_true, beq_iff_eq, ih, List.cons_prefix_cons]
      exact ⟨fun h => ⟨h.1.symm, h.2⟩, fun h => ⟨h.1.symm, h.2⟩⟩

/-- `listContains` computes the (contiguous) infix relation: the
mathematical meaning of "contains as a substring". -/
theorem listContains_iff (s p : List Char) : listContains s p = true ↔ p <:+: s := by
  induction s with
  | nil => simp [listContains, listStartsWith_iff, List.prefix_nil, List.infix_nil]
  | cons a t ih =>
    simp only [listContains, Bool.or_eq_true, listStartsWith_iff, ih, List.infix_cons_iff]

/-- Every character list contains the empty list. -/
theorem listContains_nil (s : List Char) : listContains s [] = true := by
  cases s <;> rfl

/-! ## Claim theorems -/

/-- C1: for every non-empty query `q` and every flight `f` in the store,
`f` appears in the result of the matcher iff the lower-cased
`f.flightNumber` contains the lower-cased `q` as a substring (unanchored,
literal containment, stated as list-infix). -/
theorem match_mem_iff_substring (q : String) (fs : List Flight) (f : Flight)
    (hq : q ≠ "") (hf : f ∈ fs) :
    f ∈ matchQuery q fs ↔ (jsToLower q).data <:+: (jsToLower f.flightNumber).data := by
  rw [matchQuery, List.mem_filter]
  simp only [hf, true_and]
  exact listContains_iff (jsToLower f.flightNumber).data (jsToLower q).data

/-- Witness for C1 at a concrete input: the query `"AA"` and the seed
record `mockAA123`, a member of the seed store. -/
theorem match_mem_iff_substring_witness :
    mockAA123 ∈ matchQuery "AA" MOCK_FLIGHTS ↔
      (jsToLower "AA").data <:+: (jsToLower mockAA123.flightNumber).data :=
  match_mem_iff_substring "AA" MOCK_FLIGHTS mockAA123 (by decide) (by decide)

/-- C2: whenever the `flightNumber` parameter is absent or the empty
string, the handler returns status 400 with exactly the body
`{"error": "Flight number is required"}`. -/
theorem GET_missing_param (p : Option String) (hp : p = none ∨ p = some "") :
    GET p = { status := 400, body := errorBody } := by
  rcases hp with h | h <;> subst h <;> rfl

/-- Witness for C2 at a concrete input: the absent parameter. -/
theorem GET_missing_param_witness :
    GET none = { status := 400, body := errorBody } :=
  GET_missing_param none (Or.inl rfl)

/-- C3: the matcher is idempotent (two calls with the same query and an
unchanged store give the same sequence) and order-preserving (the result
is a subsequence of the store, no re-ranking). -/
theorem match_idempotent_order_preserving (q : String) (fs : List Flight) :
    matchQuery q fs = matchQuery q fs ∧ (matchQuery q fs).Sublist fs :=
  ⟨rfl, List.filter_sublist fs⟩

/-- C4: a well-formed request (non-empty query) whose query matches zero
records yields status 200 with an empty JSON array, not an error. -/
theorem GET_no_match_empty_array (q : String) (hq : q ≠ "")
    (h0 : matchQuery q MOCK_FLIGHTS = []) :
    GET (some q) = { status := 200, body := Json.arr [] } := by
  have hb : (q == "") = false := beq_eq_false_iff_ne.mpr hq
  simp [GET, hb, h0, buildResponse]

/-- Witness for C4 at the concrete input the spec names: the query
`"ZZ999"` matches nothing in the seed store. -/
theorem GET_no_match_empty_array_witness :
    GET (some "ZZ999") = { status := 200, body := Json.arr [] } :=
  GET_no_match_empty_array "ZZ999" (by decide) (by decide)

/-- C5: querying the seed store with `"AA123"` returns exactly one
record, whose `flightNumber` is `"AA123"`; querying with `"aa"` returns a
result including that record. -/
theorem seed_exact_and_partial_match :
    matchQuery "AA123" MOCK_FLIGHTS = [mockAA123] ∧
    mockAA123.flightNumber = "AA123" ∧
    mockAA123 ∈ matchQuery "aa" MOCK_FLIGHTS :=
  ⟨by decide, by decide, by decide⟩

/-- C6: the matcher applied to the empty-string query returns the whole
store, for every store. -/
theorem match_empty_query_returns_all (fs : List Flight) :
    matchQuery "" fs = fs :=
  List.filter_eq_self.mpr fun f _ => listContains_nil (jsToLower f.flightNumber).data

/-- C7: matching does not require unique flight numbers: any record whose
(lower-cased) flight number contains the (lower-cased) query keeps its
full multiplicity in the result, so duplicate records are all returned. -/
theorem match_preserves_duplicates (q : String) (fs : List Flight) (f : Flight)
    (h : includes (jsToLower f.flightNumber) (jsToLower q) = true) :
    (matchQuery q fs).count f = fs.count f :=
  List.count_filter h

/-- Witness for C7 at a concrete input: a store holding the seed record
`mockAA123` twice; both copies survive matching `"AA123"`. -/
theorem match_preserves_duplicates_witness :
    (matchQuery "AA123" [mockAA123, mockAA123]).count mockAA123 =
      ([mockAA123, mockAA123] : List Flight).count mockAA123 :=
  match_preserves_duplicates "AA123" [mockAA123, mockAA123] mockAA123 (by decide)

/-- C8: response building is a total passthrough: the body is a JSON
array with exactly one object per matched flight, in order (the map over
the matched sequence), of the same length, and the per-flight
serialization loses no information (it is injective). -/
theorem build_passthrough (fs : List Flight) :
    buildResponse fs = Json.arr (fs.map flightToJson) ∧
    (fs.map flightToJson).length = fs.length ∧
    Function.Injective flightToJson := by
  refine ⟨rfl, fs.length_map flightToJson, ?_⟩
  intro f g h
  rcases f with ⟨fn, al, ⟨oc, oci, ot⟩, ⟨dc, dci, dt⟩, dep, arr, st, ga⟩
  rcases g with ⟨fn2, al2, ⟨oc2, oci2, ot2⟩, ⟨dc2, dci2, dt2⟩, dep2, arr2, st2, ga2⟩
  simp only [flightToJson, locToJson, Json.obj.injEq, List.cons.injEq, Prod.mk.injEq,
    Json.str.injEq, and_true, true_and] at h
  simp_all

/-- C9: every seed record's arrival time parses to a strictly later
instant than its departure time, so the display layer's computed duration
is strictly positive on all shipped data. -/
theorem seed_duration_positive (f : Flight) (hf : f ∈ MOCK_FLIGHTS) :
    ∃ d, durationMs f = some d ∧ 0 < d := by
  simp only [MOCK_FLIGHTS, List.mem_cons, List.not_mem_nil, or_false] at hf
  rcases hf with h | h | h <;> subst h
  · exact ⟨43200000, by decide, by decide⟩
  · exact ⟨100800000, by decide, by decide⟩
  · exact ⟨51300000, by decide, by decide⟩

/-- Witness for C9 at a concrete input: the first seed record. -/
theorem seed_duration_positive_witness :
    ∃ d, durationMs mockAA123 = some d ∧ 0 < d :=
  seed_duration_positive mockAA123 (by decide)

/-- C10: the seed store's flight numbers are pairwise distinct, and
consequently every match result over the seed store contains at most one
record with any given flight number. -/
theorem seed_flightNumbers_distinct :
    (MOCK_FLIGHTS.map Flight.flightNumber).Nodup ∧
    ∀ q n, ((matchQuery q MOCK_FLIGHTS).map Flight.flightNumber).count n ≤ 1 := by
  have hnd : (MOCK_FLIGHTS.map Flight.flightNumber).Nodup := by decide
  refine ⟨hnd, fun q n => ?_⟩
  have hsub : (matchQuery q MOCK_FLIGHTS).Sublist MOCK_FLIGHTS := List.filter_sublist _
  have hmap := List.Sublist.map Flight.flightNumber hsub
  exact List.nodup_iff_count_le_one.mp (List.Nodup.sublist hmap hnd) n
